import Mathlib

/-!
Verification of the subscription state-reconciliation logic of the Membooks API
(`src/api/src/routes/subscription.ts`): the Stripe webhook reconciler and the
checkout / cancel / reactivate endpoints, shallowly embedded over an explicit
relational store.
-/

namespace Membooks

/-- A `users` row, restricted to the columns the subscription routes read or
write (`id`, `email`, `isPremium`, `stripeCustomerId`, `updatedAt`).
Modelled from the spec: the Drizzle schema module (`../db/schema`) is not among
the sources; the spec's data model lists these attributes. -/
structure User where
  id : String
  email : String
  isPremium : Bool
  stripeCustomerId : Option String
  updatedAt : Int
deriving Repr, DecidableEq

/-- A `subscriptions` row, with the columns the subscription routes touch.
Modelled from the spec: the Drizzle schema module is not among the sources;
the spec lists id, owning user id, external subscription id, external price id,
status, period bounds, `cancelAtPeriodEnd`, timestamps. -/
structure SubscriptionRow where
  id : String
  userId : String
  stripeSubscriptionId : String
  stripePriceId : String
  status : String
  currentPeriodStart : Int
  currentPeriodEnd : Int
  cancelAtPeriodEnd : Bool
  updatedAt : Int
deriving Repr, DecidableEq

/-- The relational store: the `users` and `subscriptions` tables.
Modelled from the spec: rows are kept in lists; `INSERT` appends (the spec's
schema description states a one-row-per-external-id invariant but no database
uniqueness constraint, and notes the insert branch is a bare `INSERT`). -/
structure Store where
  users : List User
  subscriptions : List SubscriptionRow
deriving Repr, DecidableEq

/-- `db.query.users.findFirst({where: eq(users.id, uid)})`. -/
def findFirstUser (s : Store) (uid : String) : Option User :=
  s.users.find? (fun u => u.id == uid)

/-- `db.query.subscriptions.findFirst({where: eq(subscriptions.userId, uid)})`. -/
def findFirstSubByUser (s : Store) (uid : String) : Option SubscriptionRow :=
  s.subscriptions.find? (fun r => r.userId == uid)

/-- `db.query.subscriptions.findFirst({where: eq(subscriptions.stripeSubscriptionId, sid)})`. -/
def findFirstSubByStripeId (s : Store) (sid : String) : Option SubscriptionRow :=
  s.subscriptions.find? (fun r => r.stripeSubscriptionId == sid)

/-- `db.update(users).set(f).where(p)`: rewrite every `users` row matching `p`. -/
def updateUsersWhere (p : User → Bool) (f : User → User) (s : Store) : Store :=
  { s with users := s.users.map (fun u => if p u then f u else u) }

/-- `db.update(subscriptions).set(f).where(p)`: rewrite every matching row. -/
def updateSubsWhere (p : SubscriptionRow → Bool) (f : SubscriptionRow → SubscriptionRow)
    (s : Store) : Store :=
  { s with subscriptions := s.subscriptions.map (fun r => if p r then f r else r) }

/-- `db.insert(subscriptions).values(r)`: append a row (no uniqueness check;
see `Store`). -/
def insertSubscription (r : SubscriptionRow) (s : Store) : Store :=
  { s with subscriptions := s.subscriptions ++ [r] }

/-- JavaScript truthiness of an optional string value (`undefined`, `null` and
`""` are falsy). -/
def truthy : Option String → Bool
  | none => false
  | some s => !(s == "")

/-- JavaScript `a || b` for an optional string `a` and a string default `b`,
as in `priceId || PREMIUM_PRICE_ID`. -/
def jsOr : Option String → String → String
  | none, b => b
  | some s, b => if s == "" then b else s

/-- The fields of a Stripe `Checkout.Session` object the webhook handler reads:
`session.metadata?.userId` and `session.subscription`. -/
structure CheckoutSession where
  metadataUserId : Option String
  subscription : Option String
deriving Repr, DecidableEq

/-- The fields of a Stripe `Subscription` object the handlers read: `id`,
`status`, `current_period_start`, `current_period_end`, `cancel_at_period_end`
and `items.data[0]?.price.id`. -/
structure StripeSubscription where
  id : String
  status : String
  current_period_start : Int
  current_period_end : Int
  cancel_at_period_end : Bool
  firstItemPriceId : Option String
deriving Repr, DecidableEq

/-- The field of a Stripe `Invoice` object the handler reads:
`(invoice as any).subscription`. -/
structure StripeInvoice where
  subscription : Option String
deriving Repr, DecidableEq

/-- A Stripe webhook event after `constructEvent`, as the handler's `switch`
on `event.type` sees it; `other` covers every unrecognized type string. -/
inductive StripeEvent where
  | checkoutSessionCompleted (session : CheckoutSession)
  | customerSubscriptionUpdated (subscription : StripeSubscription)
  | customerSubscriptionDeleted (subscription : StripeSubscription)
  | invoicePaymentFailed (invoice : StripeInvoice)
  | other (type : String)
deriving Repr, DecidableEq

/-- A Stripe API call performed by a handler, in the order it was issued. -/
inductive ProviderCall where
  | customersCreate (email userId : String)
  | checkoutSessionsCreate (customerId : String) (metadataUserId : String)
  | subscriptionsUpdate (subscriptionId : String) (cancelAtPeriodEnd : Bool)
  | subscriptionsRetrieve (subscriptionId : String)
deriving Repr, DecidableEq

/-- The JSON body a route returns. -/
inductive ResponseBody where
  | errBody (message : String)
  | internalError (message : String)
  | url (u : Option String)
  | success
  | received
deriving Repr, DecidableEq

/-- Outcome of one request: the store after the handler ran, the HTTP status
(200 unless `set.status` was assigned), the JSON body, and the Stripe calls
issued. -/
structure HandlerResult where
  store : Store
  status : Nat
  body : ResponseBody
  calls : List ProviderCall
deriving Repr

/-- Static configuration and external-world inputs of one webhook delivery:
the configured `PREMIUM_PRICE_ID`, the provider state answering
`stripe.subscriptions.retrieve`, the database-generated id for an inserted
row, and the clock value every `new Date()` in the request reads. -/
structure WebhookCtx where
  premiumPriceId : String
  retrieve : String → StripeSubscription
  freshId : String
  now : Int

/-- The `switch (event.type)` dispatch of the `POST /webhook/stripe` handler
(`subscription.ts` lines 297-401), run on an already-verified event: the store
after the branch's writes, and the provider calls the branch issued. -/
def dispatchStripeEvent (ctx : WebhookCtx) (event : StripeEvent) (s : Store) :
    Store × List ProviderCall :=
  match event with
  | .checkoutSessionCompleted session =>
    if truthy session.metadataUserId && truthy session.subscription then
      let userId := session.metadataUserId.getD ""
      let subId := session.subscription.getD ""
      let stripeSubscription := ctx.retrieve subId
      let priceId := stripeSubscription.firstItemPriceId
      let row : SubscriptionRow :=
        { id := ctx.freshId
          userId := userId
          stripeSubscriptionId := stripeSubscription.id
          stripePriceId := jsOr priceId ctx.premiumPriceId
          status := stripeSubscription.status
          currentPeriodStart := stripeSubscription.current_period_start * 1000
          currentPeriodEnd := stripeSubscription.current_period_end * 1000
          cancelAtPeriodEnd := false
          updatedAt := ctx.now }
      let s1 := insertSubscription row s
      let s2 := updateUsersWhere (fun u => u.id == userId)
        (fun u => { u with isPremium := true, updatedAt := ctx.now }) s1
      (s2, [.subscriptionsRetrieve subId])
    else
      (s, [])
  | .customerSubscriptionUpdated subscription =>
    let s1 := updateSubsWhere (fun r => r.stripeSubscriptionId == subscription.id)
      (fun r =>
        { r with
          status := subscription.status
          currentPeriodStart := subscription.current_period_start * 1000
          currentPeriodEnd := subscription.current_period_end * 1000
          cancelAtPeriodEnd := subscription.cancel_at_period_end
          updatedAt := ctx.now }) s
    match findFirstSubByStripeId s1 subscription.id with
    | some sub =>
      let isPremium := subscription.status == "active" || subscription.status == "trialing"
      let s2 := updateUsersWhere (fun u => u.id == sub.userId)
        (fun u => { u with isPremium := isPremium, updatedAt := ctx.now }) s1
      (s2, [])
    | none => (s1, [])
  | .customerSubscriptionDeleted subscription =>
    let s1 := updateSubsWhere (fun r => r.stripeSubscriptionId == subscription.id)
      (fun r => { r with status := "canceled", updatedAt := ctx.now }) s
    match findFirstSubByStripeId s1 subscription.id with
    | some sub =>
      let s2 := updateUsersWhere (fun u => u.id == sub.userId)
        (fun u => { u with isPremium := false, updatedAt := ctx.now }) s1
      (s2, [])
    | none => (s1, [])
  | .invoicePaymentFailed invoice =>
    if truthy invoice.subscription then
      let subscriptionId := invoice.subscription.getD ""
      let s1 := updateSubsWhere (fun r => r.stripeSubscriptionId == subscriptionId)
        (fun r => { r with status := "past_due", updatedAt := ctx.now }) s
      (s1, [])
    else
      (s, [])
  | .other _ => (s, [])

/-- Lines 297-404 of the webhook handler: run the dispatch, then fall through
to the single `return { received: true }` acknowledgment (line 403). -/
def handleStripeEvent (ctx : WebhookCtx) (event : StripeEvent) (s : Store) : HandlerResult :=
  ⟨(dispatchStripeEvent ctx event s).1, 200, .received, (dispatchStripeEvent ctx event s).2⟩

/-- Modelled from the spec: the MAC of the raw body bytes under the webhook
secret, which the signature header must carry ("Verify the request's
cryptographic signature against a shared webhook secret using the raw
(unparsed) body bytes"). Modelled as the secret and body joined by a
separator, so distinct bodies have distinct MACs under the same secret. -/
def signBody (secret body : String) : String := secret ++ "." ++ body

/-- Modelled from the spec: Stripe's `webhooks.constructEvent(body, sig,
secret)`, which recomputes the MAC of the raw body under the secret, compares
it with the signature header, and returns the parsed event on success,
throwing on mismatch (or on a payload that does not parse, via `parse`). -/
def constructEvent (parse : String → Except String StripeEvent)
    (body sig secret : String) : Except String StripeEvent :=
  if sig == signBody secret body then parse body
  else .error "Webhook signature verification failed"

/-- The `POST /webhook/stripe` handler (`subscription.ts` lines 273-405):
reject a missing `stripe-signature` header (400), verify the signature over
the raw body (400 on failure), then dispatch on the event type. -/
def webhookStripe (secret : String) (parse : String → Except String StripeEvent)
    (sigHeader : Option String) (body : String) (ctx : WebhookCtx) (s : Store) :
    HandlerResult :=
  match sigHeader with
  | none => ⟨s, 400, .errBody "Missing signature", []⟩
  | some sig =>
    match constructEvent parse body sig secret with
    | .error m => ⟨s, 400, .errBody ("Webhook Error: " ++ m), []⟩
    | .ok event => handleStripeEvent ctx event s

/-- `Bearer `-token extraction shared by the authenticated routes: `none` when
the `authorization` header is absent or does not start with `"Bearer "`,
else the header with its first 7 characters sliced off
(`authHeader.slice(7)`), modelled on character lists. -/
def bearerToken : Option String → Option String
  | none => none
  | some h => if "Bearer ".data.isPrefixOf h.data then some ⟨h.data.drop 7⟩ else none

/-- Outcomes of the provider calls `POST /subscription/checkout` may make:
`stripe.customers.create` (yielding the new customer id) and
`stripe.checkout.sessions.create` (yielding `session.url`); either may throw. -/
structure CheckoutProvider where
  createCustomer : Except String String
  createSession : Except String (Option String)

/-- The `POST /subscription/checkout` handler (`subscription.ts` lines 46-117).
`jwtVerify` maps a token to the verified payload's `sub`, or `none`. A thrown
provider error is converted by `subscriptionRoutes.onError` (lines 38-44) into
a 500 response carrying the error message. -/
def subscriptionCheckout (jwtVerify : String → Option String)
    (provider : CheckoutProvider) (authHeader : Option String) (s : Store) :
    HandlerResult :=
  match bearerToken authHeader with
  | none => ⟨s, 401, .errBody "Unauthorized", []⟩
  | some token =>
    match jwtVerify token with
    | none => ⟨s, 401, .errBody "Invalid token", []⟩
    | some sub =>
      match findFirstUser s sub with
      | none => ⟨s, 404, .errBody "User not found", []⟩
      | some user =>
        if user.isPremium then ⟨s, 400, .errBody "Already premium", []⟩
        else if truthy user.stripeCustomerId then
          let customerId := user.stripeCustomerId.getD ""
          match provider.createSession with
          | .error m =>
            ⟨s, 500, .internalError m, [.checkoutSessionsCreate customerId user.id]⟩
          | .ok u =>
            ⟨s, 200, .url u, [.checkoutSessionsCreate customerId user.id]⟩
        else
          match provider.createCustomer with
          | .error m => ⟨s, 500, .internalError m, [.customersCreate user.email user.id]⟩
          | .ok customerId =>
            let s1 := updateUsersWhere (fun u => u.id == user.id)
              (fun u => { u with stripeCustomerId := some customerId }) s
            match provider.createSession with
            | .error m =>
              ⟨s1, 500, .internalError m,
                [.customersCreate user.email user.id,
                 .checkoutSessionsCreate customerId user.id]⟩
            | .ok u =>
              ⟨s1, 200, .url u,
                [.customersCreate user.email user.id,
                 .checkoutSessionsCreate customerId user.id]⟩

/-- The `POST /subscription/cancel` handler (`subscription.ts` lines 164-215).
`providerUpdate` is the outcome of
`stripe.subscriptions.update(id, {cancel_at_period_end: true})`; when it
throws, `subscriptionRoutes.onError` yields a 500 with the message and the
local write is never reached. -/
def subscriptionCancel (jwtVerify : String → Option String)
    (providerUpdate : Except String Unit) (now : Int)
    (authHeader : Option String) (s : Store) : HandlerResult :=
  match bearerToken authHeader with
  | none => ⟨s, 401, .errBody "Unauthorized", []⟩
  | some token =>
    match jwtVerify token with
    | none => ⟨s, 401, .errBody "Invalid token", []⟩
    | some sub =>
      match findFirstUser s sub with
      | none => ⟨s, 404, .errBody "User not found", []⟩
      | some user =>
        match findFirstSubByUser s user.id with
        | none => ⟨s, 400, .errBody "No active subscription", []⟩
        | some subscription =>
          match providerUpdate with
          | .error m =>
            ⟨s, 500, .internalError m,
              [.subscriptionsUpdate subscription.stripeSubscriptionId true]⟩
          | .ok _ =>
            let s1 := updateSubsWhere (fun r => r.id == subscription.id)
              (fun r => { r with cancelAtPeriodEnd := true, updatedAt := now }) s
            ⟨s1, 200, .success,
              [.subscriptionsUpdate subscription.stripeSubscriptionId true]⟩

/-- The `POST /subscription/reactivate` handler (`subscription.ts` lines
218-269). Rejects (400) unless a local row exists with
`cancelAtPeriodEnd = true`; otherwise asks the provider to clear
`cancel_at_period_end` and, on success, mirrors the flag locally. -/
def subscriptionReactivate (jwtVerify : String → Option String)
    (providerUpdate : Except String Unit) (now : Int)
    (authHeader : Option String) (s : Store) : HandlerResult :=
  match bearerToken authHeader with
  | none => ⟨s, 401, .errBody "Unauthorized", []⟩
  | some token =>
    match jwtVerify token with
    | none => ⟨s, 401, .errBody "Invalid token", []⟩
    | some sub =>
      match findFirstUser s sub with
      | none => ⟨s, 404, .errBody "User not found", []⟩
      | some user =>
        match findFirstSubByUser s user.id with
        | none => ⟨s, 400, .errBody "No subscription to reactivate", []⟩
        | some subscription =>
          if !subscription.cancelAtPeriodEnd then
            ⟨s, 400, .errBody "No subscription to reactivate", []⟩
          else
            match providerUpdate with
            | .error m =>
              ⟨s, 500, .internalError m,
                [.subscriptionsUpdate subscription.stripeSubscriptionId false]⟩
            | .ok _ =>
              let s1 := updateSubsWhere (fun r => r.id == subscription.id)
                (fun r => { r with cancelAtPeriodEnd := false, updatedAt := now }) s
              ⟨s1, 200, .success,
                [.subscriptionsUpdate subscription.stripeSubscriptionId false]⟩

/-! ### Helper lemmas -/

/-- `find?` over a map that only rewrites matching elements finds the rewrite
of what `find?` found, provided the rewrite preserves the predicate. -/
theorem find_map_if {A : Type} (p : A → Bool) (f : A → A) (hf : ∀ x, p (f x) = p x) :
    ∀ l : List A, (l.map (fun x => if p x then f x else x)).find? p
      = (l.find? p).map (fun x => if p x then f x else x) := by
  intro l
  induction l with
  | nil => rfl
  | cons x xs ih =>
    by_cases hx : p x
    · simp [List.find?, hx, hf]
    · simp only [List.map_cons, List.find?]
      rw [if_neg hx]
      simp only [hx]
      simpa using ih

/-- Looking a row up by external subscription id after an update keyed on the
same id finds the updated row. -/
theorem findFirst_after_update (s : Store) (sid : String)
    (f : SubscriptionRow → SubscriptionRow)
    (hf : ∀ x, (f x).stripeSubscriptionId = x.stripeSubscriptionId) :
    findFirstSubByStripeId
        (updateSubsWhere (fun x => x.stripeSubscriptionId == sid) f s) sid
      = (findFirstSubByStripeId s sid).map
          (fun x => if x.stripeSubscriptionId == sid then f x else x) := by
  unfold findFirstSubByStripeId updateSubsWhere
  exact find_map_if _ _ (fun x => by simp [hf]) _

/-- Distinct raw bodies have distinct MACs under the same secret. -/
theorem signBody_inj {secret b1 b2 : String} (h : signBody secret b1 = signBody secret b2) :
    b1 = b2 := by
  unfold signBody at h
  have h2 : (secret ++ "." ++ b1).data = (secret ++ "." ++ b2).data := by rw [h]
  simp [String.data_append] at h2
  exact String.ext h2

/-- Elements of the `subscriptions` table after a conditional update come from
elements of the table before it. -/
theorem mem_updateSubsWhere_elim {p : SubscriptionRow → Bool}
    {f : SubscriptionRow → SubscriptionRow} {s : Store} {r' : SubscriptionRow}
    (h : r' ∈ (updateSubsWhere p f s).subscriptions) :
    ∃ x, x ∈ s.subscriptions ∧ (if p x then f x else x) = r' :=
  List.mem_map.mp h

/-- Elements of the `users` table after a conditional update come from
elements of the table before it. -/
theorem mem_updateUsersWhere_elim {p : User → Bool} {f : User → User} {s : Store}
    {u : User} (h : u ∈ (updateUsersWhere p f s).users) :
    ∃ x, x ∈ s.users ∧ (if p x then f x else x) = u :=
  List.mem_map.mp h

/-! ### Concrete fixtures for witnesses -/

def exCtx : WebhookCtx :=
  { premiumPriceId := "price_premium"
    retrieve := fun sid =>
      { id := sid, status := "active", current_period_start := 100,
        current_period_end := 200, cancel_at_period_end := false,
        firstItemPriceId := some "price_premium" }
    freshId := "row1", now := 5 }

def exCtx2 : WebhookCtx := { exCtx with freshId := "row2", now := 6 }

def exUser : User :=
  { id := "u1", email := "a@b.c", isPremium := false,
    stripeCustomerId := some "cus_1", updatedAt := 0 }

def exRow : SubscriptionRow :=
  { id := "row1", userId := "u1", stripeSubscriptionId := "sub_1",
    stripePriceId := "price_premium", status := "active",
    currentPeriodStart := 100000, currentPeriodEnd := 200000,
    cancelAtPeriodEnd := false, updatedAt := 0 }

def exStore : Store := { users := [exUser], subscriptions := [exRow] }

def exEmptyStore : Store := { users := [exUser], subscriptions := [] }

def exSession : CheckoutSession :=
  { metadataUserId := some "u1", subscription := some "sub_1" }

/-! ### Claims -/

/-- C1: after a verified `customer.subscription.updated` event whose id
matches a local row, every matching row carries the event's status, period
bounds and `cancelAtPeriodEnd`, and the owning user's `isPremium` is true iff
the event's status is `active` or `trialing`. -/
theorem subscription_updated_reconciles (ctx : WebhookCtx) (ev : StripeSubscription)
    (s : Store) (r : SubscriptionRow)
    (hr : findFirstSubByStripeId s ev.id = some r) :
    (∀ r' ∈ (handleStripeEvent ctx (.customerSubscriptionUpdated ev) s).store.subscriptions,
        r'.stripeSubscriptionId = ev.id →
        r'.status = ev.status ∧
        r'.currentPeriodStart = ev.current_period_start * 1000 ∧
        r'.currentPeriodEnd = ev.current_period_end * 1000 ∧
        r'.cancelAtPeriodEnd = ev.cancel_at_period_end) ∧
    (∀ u ∈ (handleStripeEvent ctx (.customerSubscriptionUpdated ev) s).store.users,
        u.id = r.userId →
        (u.isPremium = true ↔ (ev.status = "active" ∨ ev.status = "trialing"))) := by
  have hpr : (r.stripeSubscriptionId == ev.id) = true := by
    simpa using List.find?_some hr
  have h1 := findFirst_after_update s ev.id
    (fun x =>
      { x with
        status := ev.status
        currentPeriodStart := ev.current_period_start * 1000
        currentPeriodEnd := ev.current_period_end * 1000
        cancelAtPeriodEnd := ev.cancel_at_period_end
        updatedAt := ctx.now }) (fun x => rfl)
  rw [hr] at h1
  simp only [Option.map_some', hpr, if_true] at h1
  have heq : handleStripeEvent ctx (.customerSubscriptionUpdated ev) s =
      ⟨updateUsersWhere (fun u => u.id == r.userId)
          (fun u =>
            { u with
              isPremium := ev.status == "active" || ev.status == "trialing"
              updatedAt := ctx.now })
          (updateSubsWhere (fun x => x.stripeSubscriptionId == ev.id)
            (fun x =>
              { x with
                status := ev.status
                currentPeriodStart := ev.current_period_start * 1000
                currentPeriodEnd := ev.current_period_end * 1000
                cancelAtPeriodEnd := ev.cancel_at_period_end
                updatedAt := ctx.now }) s),
        200, .received, []⟩ := by
    simp only [handleStripeEvent, dispatchStripeEvent, h1]
  rw [heq]
  constructor
  · intro r' hmem hid
    obtain ⟨x, hx, hxe⟩ := mem_updateSubsWhere_elim hmem
    by_cases hpx : (x.stripeSubscriptionId == ev.id) = true
    · rw [if_pos hpx] at hxe
      subst hxe
      exact ⟨rfl, rfl, rfl, rfl⟩
    · rw [if_neg hpx] at hxe
      subst hxe
      exact absurd (by simp [hid]) hpx
  · intro u hmem hid
    obtain ⟨x, hx, hxe⟩ := mem_updateUsersWhere_elim hmem
    by_cases hpx : (x.id == r.userId) = true
    · rw [if_pos hpx] at hxe
      subst hxe
      simp [Bool.or_eq_true, beq_iff_eq]
    · rw [if_neg hpx] at hxe
      subst hxe
      exact absurd (by simp [hid]) hpx

/-- C1 witness: the theorem applied at a one-user, one-row store and a
concrete `trialing` event. -/
theorem subscription_updated_reconciles_witness :
    (∀ r' ∈ (handleStripeEvent exCtx
        (.customerSubscriptionUpdated
          { id := "sub_1", status := "trialing", current_period_start := 300,
            current_period_end := 400, cancel_at_period_end := true,
            firstItemPriceId := some "price_premium" }) exStore).store.subscriptions,
        r'.stripeSubscriptionId = "sub_1" →
        r'.status = "trialing" ∧
        r'.currentPeriodStart = 300 * 1000 ∧
        r'.currentPeriodEnd = 400 * 1000 ∧
        r'.cancelAtPeriodEnd = true) ∧
    (∀ u ∈ (handleStripeEvent exCtx
        (.customerSubscriptionUpdated
          { id := "sub_1", status := "trialing", current_period_start := 300,
            current_period_end := 400, cancel_at_period_end := true,
            firstItemPriceId := some "price_premium" }) exStore).store.users,
        u.id = "u1" →
        (u.isPremium = true ↔ ("trialing" = "active" ∨ "trialing" = "trialing"))) :=
  subscription_updated_reconciles exCtx
    { id := "sub_1", status := "trialing", current_period_start := 300,
      current_period_end := 400, cancel_at_period_end := true,
      firstItemPriceId := some "price_premium" } exStore exRow (by decide)

/-- C10: a verified `checkout.session.completed` event whose session has no
userId in metadata or no attached subscription leaves the store untouched
(no insert, no `isPremium` change), performs no provider retrieval, and is
still acknowledged with `{received: true}`. -/
theorem checkout_completed_guard (ctx : WebhookCtx) (session : CheckoutSession)
    (s : Store)
    (h : (truthy session.metadataUserId && truthy session.subscription) = false) :
    (handleStripeEvent ctx (.checkoutSessionCompleted session) s).store = s ∧
    (handleStripeEvent ctx (.checkoutSessionCompleted session) s).calls = [] ∧
    (handleStripeEvent ctx (.checkoutSessionCompleted session) s).status = 200 ∧
    (handleStripeEvent ctx (.checkoutSessionCompleted session) s).body = .received := by
  simp [handleStripeEvent, dispatchStripeEvent, h]

/-- C10 witness: a session carrying a subscription but no metadata userId. -/
theorem checkout_completed_guard_witness :
    (handleStripeEvent exCtx
        (.checkoutSessionCompleted { metadataUserId := none, subscription := some "sub_1" })
        exStore).store = exStore ∧
    (handleStripeEvent exCtx
        (.checkoutSessionCompleted { metadataUserId := none, subscription := some "sub_1" })
        exStore).calls = [] ∧
    (handleStripeEvent exCtx
        (.checkoutSessionCompleted { metadataUserId := none, subscription := some "sub_1" })
        exStore).status = 200 ∧
    (handleStripeEvent exCtx
        (.checkoutSessionCompleted { metadataUserId := none, subscription := some "sub_1" })
        exStore).body = .received :=
  checkout_completed_guard exCtx
    { metadataUserId := none, subscription := some "sub_1" } exStore (by decide)

/-- C9: every webhook request that passes signature verification is
acknowledged with `{received: true}` and status 200, whatever branch ran; an
event of an unrecognized type additionally leaves the store unchanged. -/
theorem webhook_verified_acknowledged (secret : String)
    (parse : String → Except String StripeEvent) (sig body : String)
    (ctx : WebhookCtx) (s : Store) (event : StripeEvent)
    (hok : constructEvent parse body sig secret = .ok event) :
    (webhookStripe secret parse (some sig) body ctx s).status = 200 ∧
    (webhookStripe secret parse (some sig) body ctx s).body = .received ∧
    (∀ t, event = .other t → (webhookStripe secret parse (some sig) body ctx s).store = s) := by
  have hw : webhookStripe secret parse (some sig) body ctx s = handleStripeEvent ctx event s := by
    simp only [webhookStripe, hok]
  rw [hw]
  refine ⟨rfl, rfl, ?_⟩
  intro t ht
  subst ht
  rfl

/-- C9 witness: a well-signed event of the unrecognized type
`"payment_intent.created"`. -/
theorem webhook_verified_acknowledged_witness :
    (webhookStripe "whsec" (fun _ => .ok (.other "payment_intent.created"))
        (some (signBody "whsec" "payload")) "payload" exCtx exStore).status = 200 ∧
    (webhookStripe "whsec" (fun _ => .ok (.other "payment_intent.created"))
        (some (signBody "whsec" "payload")) "payload" exCtx exStore).body = .received ∧
    (∀ t, (StripeEvent.other "payment_intent.created") = .other t →
      (webhookStripe "whsec" (fun _ => .ok (.other "payment_intent.created"))
        (some (signBody "whsec" "payload")) "payload" exCtx exStore).store = exStore) :=
  webhook_verified_acknowledged "whsec" (fun _ => .ok (.other "payment_intent.created"))
    (signBody "whsec" "payload") "payload" exCtx exStore
    (.other "payment_intent.created") rfl

/-- C5: a verified `invoice.payment_failed` event carrying a subscription id
sets every matching row's status to `past_due`, leaves non-matching rows as
they were, and leaves the `users` table — in particular every `isPremium`
flag — untouched. -/
theorem invoice_payment_failed_frame (ctx : WebhookCtx) (inv : StripeInvoice)
    (sid : String) (s : Store) (hsid : inv.subscription = some sid) (hne : sid ≠ "") :
    (handleStripeEvent ctx (.invoicePaymentFailed inv) s).store.users = s.users ∧
    (∀ r ∈ s.subscriptions, r.stripeSubscriptionId = sid →
      { r with status := "past_due", updatedAt := ctx.now } ∈
        (handleStripeEvent ctx (.invoicePaymentFailed inv) s).store.subscriptions) ∧
    (∀ r ∈ s.subscriptions, r.stripeSubscriptionId ≠ sid →
      r ∈ (handleStripeEvent ctx (.invoicePaymentFailed inv) s).store.subscriptions) := by
  have ht : truthy (some sid) = true := by simp [truthy, hne]
  have heq : handleStripeEvent ctx (.invoicePaymentFailed inv) s =
      ⟨updateSubsWhere (fun r => r.stripeSubscriptionId == sid)
          (fun r => { r with status := "past_due", updatedAt := ctx.now }) s,
        200, .received, []⟩ := by
    simp [handleStripeEvent, dispatchStripeEvent, hsid, ht]
  rw [heq]
  refine ⟨rfl, ?_, ?_⟩
  · intro r hr hmatch
    have hb : (r.stripeSubscriptionId == sid) = true := by simp [hmatch]
    refine List.mem_map.mpr ⟨r, hr, ?_⟩
    rw [if_pos hb]
  · intro r hr hmatch
    have hb : ¬((r.stripeSubscriptionId == sid) = true) := by simp [hmatch]
    refine List.mem_map.mpr ⟨r, hr, ?_⟩
    rw [if_neg hb]

/-- C5 witness: a payment-failure invoice for the stored row `sub_1`. -/
theorem invoice_payment_failed_frame_witness :
    (handleStripeEvent exCtx (.invoicePaymentFailed { subscription := some "sub_1" })
        exStore).store.users = exStore.users ∧
    (∀ r ∈ exStore.subscriptions, r.stripeSubscriptionId = "sub_1" →
      { r with status := "past_due", updatedAt := exCtx.now } ∈
        (handleStripeEvent exCtx (.invoicePaymentFailed { subscription := some "sub_1" })
          exStore).store.subscriptions) ∧
    (∀ r ∈ exStore.subscriptions, r.stripeSubscriptionId ≠ "sub_1" →
      r ∈ (handleStripeEvent exCtx (.invoicePaymentFailed { subscription := some "sub_1" })
          exStore).store.subscriptions) :=
  invoice_payment_failed_frame exCtx { subscription := some "sub_1" } "sub_1" exStore
    rfl (by decide)

/-- C3: a webhook request that fails signature verification — missing
`stripe-signature` header, a signature that is not the body's MAC under the
secret, or an unchanged signature over a tampered body — is rejected with 400,
mutates no store row and issues no provider call. -/
theorem webhook_failed_verification (secret : String)
    (parse : String → Except String StripeEvent) (sigHeader : Option String)
    (body : String) (ctx : WebhookCtx) (s : Store)
    (h : sigHeader = none ∨
      (∃ sig, sigHeader = some sig ∧ sig ≠ signBody secret body) ∨
      (∃ sig origBody, sigHeader = some sig ∧ sig = signBody secret origBody ∧
        origBody ≠ body)) :
    (webhookStripe secret parse sigHeader body ctx s).status = 400 ∧
    (webhookStripe secret parse sigHeader body ctx s).store = s ∧
    (webhookStripe secret parse sigHeader body ctx s).calls = [] := by
  have reject : ∀ sig, sig ≠ signBody secret body →
      (webhookStripe secret parse (some sig) body ctx s).status = 400 ∧
      (webhookStripe secret parse (some sig) body ctx s).store = s ∧
      (webhookStripe secret parse (some sig) body ctx s).calls = [] := by
    intro sig hne
    have hb : (sig == signBody secret body) = false := by simp [hne]
    simp [webhookStripe, constructEvent, hb]
  rcases h with h | ⟨sig, hs, hne⟩ | ⟨sig, origBody, hs, hmac, hneq⟩
  · subst h
    exact ⟨rfl, rfl, rfl⟩
  · subst hs
    exact reject sig hne
  · subst hs
    subst hmac
    exact reject _ (fun hcontra => hneq (signBody_inj hcontra))

/-- C3 witness: a body tampered after signing, delivered with the original
signature header. -/
theorem webhook_failed_verification_witness :
    (webhookStripe "whsec" (fun _ => .ok (.other "t"))
        (some (signBody "whsec" "payload")) "tampered" exCtx exStore).status = 400 ∧
    (webhookStripe "whsec" (fun _ => .ok (.other "t"))
        (some (signBody "whsec" "payload")) "tampered" exCtx exStore).store = exStore ∧
    (webhookStripe "whsec" (fun _ => .ok (.other "t"))
        (some (signBody "whsec" "payload")) "tampered" exCtx exStore).calls = [] :=
  webhook_failed_verification "whsec" (fun _ => .ok (.other "t"))
    (some (signBody "whsec" "payload")) "tampered" exCtx exStore
    (Or.inr (Or.inr ⟨signBody "whsec" "payload", "payload", rfl, rfl, by decide⟩))

/-- C2: the `checkout.session.completed` branch does a bare `INSERT`, so the
identical verified event delivered twice leaves TWO subscription rows for the
external id `sub_1` — the claim's one-row idempotence fails — while
`isPremium` is indeed true after either delivery. -/
theorem checkout_completed_double_delivery :
    ((handleStripeEvent exCtx2 (.checkoutSessionCompleted exSession)
        (handleStripeEvent exCtx (.checkoutSessionCompleted exSession)
          exEmptyStore).store).store.subscriptions.filter
      (fun r => r.stripeSubscriptionId == "sub_1")).length = 2 ∧
    (∀ u ∈ (handleStripeEvent exCtx (.checkoutSessionCompleted exSession)
        exEmptyStore).store.users, u.isPremium = true) ∧
    (∀ u ∈ (handleStripeEvent exCtx2 (.checkoutSessionCompleted exSession)
        (handleStripeEvent exCtx (.checkoutSessionCompleted exSession)
          exEmptyStore).store).store.users, u.isPremium = true) := by
  decide

def exVerify : String → Option String := fun t => if t == "tok1" then some "u1" else none

def exAuthHeader : Option String := some "Bearer tok1"

def exRowCancel : SubscriptionRow := { exRow with cancelAtPeriodEnd := true }

def exStoreCancel : Store := { users := [exUser], subscriptions := [exRowCancel] }

/-- C6: an authenticated, existing user hitting `POST /subscription/cancel`
with no local subscription row gets 400 with no provider call and no store
write; with a row, the provider is asked to set `cancel_at_period_end = true`
and only on its success is the local row's `cancelAtPeriodEnd` set. -/
theorem cancel_requires_subscription (jwtVerify : String → Option String)
    (providerUpdate : Except String Unit) (now : Int) (authHeader : Option String)
    (token uid : String) (user : User) (s : Store)
    (htok : bearerToken authHeader = some token) (hjwt : jwtVerify token = some uid)
    (huser : findFirstUser s uid = some user) :
    (findFirstSubByUser s user.id = none →
      (subscriptionCancel jwtVerify providerUpdate now authHeader s).status = 400 ∧
      (subscriptionCancel jwtVerify providerUpdate now authHeader s).calls = [] ∧
      (subscriptionCancel jwtVerify providerUpdate now authHeader s).store = s) ∧
    (∀ subRow, findFirstSubByUser s user.id = some subRow →
      (subscriptionCancel jwtVerify (.ok ()) now authHeader s).calls =
        [.subscriptionsUpdate subRow.stripeSubscriptionId true] ∧
      (∀ r ∈ (subscriptionCancel jwtVerify (.ok ()) now authHeader s).store.subscriptions,
        r.id = subRow.id → r.cancelAtPeriodEnd = true) ∧
      (∀ msg, (subscriptionCancel jwtVerify (.error msg) now authHeader s).store = s)) := by
  constructor
  · intro hnone
    simp [subscriptionCancel, htok, hjwt, huser, hnone]
  · intro subRow hsub
    have heq : subscriptionCancel jwtVerify (.ok ()) now authHeader s =
        ⟨updateSubsWhere (fun r => r.id == subRow.id)
            (fun r => { r with cancelAtPeriodEnd := true, updatedAt := now }) s,
          200, .success, [.subscriptionsUpdate subRow.stripeSubscriptionId true]⟩ := by
      simp [subscriptionCancel, htok, hjwt, huser, hsub]
    refine ⟨by rw [heq], ?_, ?_⟩
    · rw [heq]
      intro r hmem hid
      obtain ⟨x, hx, hxe⟩ := mem_updateSubsWhere_elim hmem
      by_cases hpx : (x.id == subRow.id) = true
      · rw [if_pos hpx] at hxe
        subst hxe
        rfl
      · rw [if_neg hpx] at hxe
        subst hxe
        exact absurd (by simp [hid]) hpx
    · intro msg
      simp [subscriptionCancel, htok, hjwt, huser, hsub]

/-- C6 witness: the theorem applied at a store holding one subscription row
for the authenticated user. -/
theorem cancel_requires_subscription_witness :
    (findFirstSubByUser exStore "u1" = none →
      (subscriptionCancel exVerify (.ok ()) 7 exAuthHeader exStore).status = 400 ∧
      (subscriptionCancel exVerify (.ok ()) 7 exAuthHeader exStore).calls = [] ∧
      (subscriptionCancel exVerify (.ok ()) 7 exAuthHeader exStore).store = exStore) ∧
    (∀ subRow, findFirstSubByUser exStore "u1" = some subRow →
      (subscriptionCancel exVerify (.ok ()) 7 exAuthHeader exStore).calls =
        [.subscriptionsUpdate subRow.stripeSubscriptionId true] ∧
      (∀ r ∈ (subscriptionCancel exVerify (.ok ()) 7 exAuthHeader exStore).store.subscriptions,
        r.id = subRow.id → r.cancelAtPeriodEnd = true) ∧
      (∀ msg, (subscriptionCancel exVerify (.error msg) 7 exAuthHeader exStore).store =
        exStore)) :=
  cancel_requires_subscription exVerify (.ok ()) 7 exAuthHeader "tok1" "u1" exUser exStore
    (by decide) rfl rfl

/-- C7: an authenticated, existing user hitting `POST /subscription/reactivate`
gets 400 exactly when there is no local subscription row or the first row's
`cancelAtPeriodEnd` is false, and in the 400 case no provider call and no
store write happens. -/
theorem reactivate_rejects_iff (jwtVerify : String → Option String)
    (providerUpdate : Except String Unit) (now : Int) (authHeader : Option String)
    (token uid : String) (user : User) (s : Store)
    (htok : bearerToken authHeader = some token) (hjwt : jwtVerify token = some uid)
    (huser : findFirstUser s uid = some user) :
    ((subscriptionReactivate jwtVerify providerUpdate now authHeader s).status = 400 ↔
      (findFirstSubByUser s user.id = none ∨
        ∃ subRow, findFirstSubByUser s user.id = some subRow ∧
          subRow.cancelAtPeriodEnd = false)) ∧
    ((subscriptionReactivate jwtVerify providerUpdate now authHeader s).status = 400 →
      (subscriptionReactivate jwtVerify providerUpdate now authHeader s).calls = [] ∧
      (subscriptionReactivate jwtVerify providerUpdate now authHeader s).store = s) := by
  rcases hfind : findFirstSubByUser s user.id with _ | subRow
  · have heq : subscriptionReactivate jwtVerify providerUpdate now authHeader s =
        ⟨s, 400, .errBody "No subscription to reactivate", []⟩ := by
      simp [subscriptionReactivate, htok, hjwt, huser, hfind]
    rw [heq]
    exact ⟨⟨fun _ => Or.inl rfl, fun _ => rfl⟩, fun _ => ⟨rfl, rfl⟩⟩
  · rcases hc : subRow.cancelAtPeriodEnd with _ | _
    · have heq : subscriptionReactivate jwtVerify providerUpdate now authHeader s =
          ⟨s, 400, .errBody "No subscription to reactivate", []⟩ := by
        simp [subscriptionReactivate, htok, hjwt, huser, hfind, hc]
      rw [heq]
      exact ⟨⟨fun _ => Or.inr ⟨subRow, rfl, hc⟩, fun _ => rfl⟩, fun _ => ⟨rfl, rfl⟩⟩
    · have hstat : (subscriptionReactivate jwtVerify providerUpdate now authHeader s).status ≠ 400 := by
        rcases providerUpdate with m | u
        · have heq : subscriptionReactivate jwtVerify (.error m) now authHeader s =
              ⟨s, 500, .internalError m,
                [.subscriptionsUpdate subRow.stripeSubscriptionId false]⟩ := by
            simp [subscriptionReactivate, htok, hjwt, huser, hfind, hc]
          rw [heq]
          simp
        · have heq : subscriptionReactivate jwtVerify (.ok u) now authHeader s =
              ⟨updateSubsWhere (fun r => r.id == subRow.id)
                  (fun r => { r with cancelAtPeriodEnd := false, updatedAt := now }) s,
                200, .success,
                [.subscriptionsUpdate subRow.stripeSubscriptionId false]⟩ := by
            simp [subscriptionReactivate, htok, hjwt, huser, hfind, hc]
          rw [heq]
          simp
      refine ⟨⟨fun h => absurd h hstat, ?_⟩, fun h => absurd h hstat⟩
      rintro (hnone | ⟨subRow2, hsome, hflag⟩)
      · exact absurd hnone (by simp)
      · have hss : subRow = subRow2 := by injection hsome
        rw [← hss, hc] at hflag
        exact absurd hflag (by simp)

/-- C7 witness: the stored row is not flagged for cancellation, so the
request is rejected with 400 and nothing happens. -/
theorem reactivate_rejects_iff_witness :
    ((subscriptionReactivate exVerify (.ok ()) 7 exAuthHeader exStore).status = 400 ↔
      (findFirstSubByUser exStore "u1" = none ∨
        ∃ subRow, findFirstSubByUser exStore "u1" = some subRow ∧
          subRow.cancelAtPeriodEnd = false)) ∧
    ((subscriptionReactivate exVerify (.ok ()) 7 exAuthHeader exStore).status = 400 →
      (subscriptionReactivate exVerify (.ok ()) 7 exAuthHeader exStore).calls = [] ∧
      (subscriptionReactivate exVerify (.ok ()) 7 exAuthHeader exStore).store = exStore) :=
  reactivate_rejects_iff exVerify (.ok ()) 7 exAuthHeader "tok1" "u1" exUser exStore
    (by decide) rfl rfl

/-- C4: when the provider call of `POST /subscription/cancel` or
`POST /subscription/reactivate` throws, the endpoint returns 500 carrying the
underlying message and the local store — in particular the subscription row's
`cancelAtPeriodEnd` — is unchanged. The cancel arm holds for any subscription
row, flagged or not; the reactivate arm requires the row's flag to be true,
since otherwise the code rejects with 400 before the provider call. -/
theorem cancel_reactivate_provider_error (jwtVerify : String → Option String)
    (now : Int) (authHeader : Option String) (token uid msg : String)
    (user : User) (subRow : SubscriptionRow) (s : Store)
    (htok : bearerToken authHeader = some token) (hjwt : jwtVerify token = some uid)
    (huser : findFirstUser s uid = some user)
    (hsub : findFirstSubByUser s user.id = some subRow) :
    ((subscriptionCancel jwtVerify (.error msg) now authHeader s).status = 500 ∧
      (subscriptionCancel jwtVerify (.error msg) now authHeader s).body =
        .internalError msg ∧
      (subscriptionCancel jwtVerify (.error msg) now authHeader s).store = s) ∧
    (subRow.cancelAtPeriodEnd = true →
      (subscriptionReactivate jwtVerify (.error msg) now authHeader s).status = 500 ∧
      (subscriptionReactivate jwtVerify (.error msg) now authHeader s).body =
        .internalError msg ∧
      (subscriptionReactivate jwtVerify (.error msg) now authHeader s).store = s) := by
  constructor
  · simp [subscriptionCancel, htok, hjwt, huser, hsub]
  · intro hflag
    simp [subscriptionReactivate, htok, hjwt, huser, hsub, hflag]

/-- C4 witness: a failing provider call against a store whose row is not yet
flagged (exercising the cancel arm where preserving `cancelAtPeriodEnd` is
non-trivial), and against one whose row is flagged (exercising both arms). -/
theorem cancel_reactivate_provider_error_witness :
    (((subscriptionCancel exVerify (.error "boom") 7 exAuthHeader exStore).status = 500 ∧
      (subscriptionCancel exVerify (.error "boom") 7 exAuthHeader exStore).body =
        .internalError "boom" ∧
      (subscriptionCancel exVerify (.error "boom") 7 exAuthHeader exStore).store =
        exStore) ∧
    (exRow.cancelAtPeriodEnd = true →
      (subscriptionReactivate exVerify (.error "boom") 7 exAuthHeader exStore).status = 500 ∧
      (subscriptionReactivate exVerify (.error "boom") 7 exAuthHeader exStore).body =
        .internalError "boom" ∧
      (subscriptionReactivate exVerify (.error "boom") 7 exAuthHeader exStore).store =
        exStore)) ∧
    (((subscriptionCancel exVerify (.error "boom") 7 exAuthHeader exStoreCancel).status = 500 ∧
      (subscriptionCancel exVerify (.error "boom") 7 exAuthHeader exStoreCancel).body =
        .internalError "boom" ∧
      (subscriptionCancel exVerify (.error "boom") 7 exAuthHeader exStoreCancel).store =
        exStoreCancel) ∧
    (exRowCancel.cancelAtPeriodEnd = true →
      (subscriptionReactivate exVerify (.error "boom") 7 exAuthHeader exStoreCancel).status = 500 ∧
      (subscriptionReactivate exVerify (.error "boom") 7 exAuthHeader exStoreCancel).body =
        .internalError "boom" ∧
      (subscriptionReactivate exVerify (.error "boom") 7 exAuthHeader exStoreCancel).store =
        exStoreCancel)) :=
  ⟨cancel_reactivate_provider_error exVerify 7 exAuthHeader "tok1" "u1" "boom" exUser
      exRow exStore (by decide) rfl rfl rfl,
    cancel_reactivate_provider_error exVerify 7 exAuthHeader "tok1" "u1" "boom" exUser
      exRowCancel exStoreCancel (by decide) rfl rfl rfl⟩

/-- After persisting a new customer id on every user row matching `uid`, each
matching row carries that id. -/
theorem updateUsersWhere_sets_customer (s : Store) (uid cid : String) :
    ∀ u ∈ (updateUsersWhere (fun u => u.id == uid)
        (fun u => { u with stripeCustomerId := some cid }) s).users,
      u.id = uid → u.stripeCustomerId = some cid := by
  intro u hmem hid
  obtain ⟨x, hx, hxe⟩ := mem_updateUsersWhere_elim hmem
  by_cases hpx : (x.id == uid) = true
  · rw [if_pos hpx] at hxe
    subst hxe
    rfl
  · rw [if_neg hpx] at hxe
    subst hxe
    exact absurd (by simp [hid]) hpx

def exUserFresh : User := { exUser with stripeCustomerId := none }

def exStoreFresh : Store := { users := [exUserFresh], subscriptions := [] }

def exProvider : CheckoutProvider :=
  { createCustomer := .ok "cus_new", createSession := .ok (some "https://pay") }

/-- C8: during `POST /subscription/checkout` for an authenticated non-premium
user: with no stored Stripe customer, exactly one customer is created and its
id is persisted on the user row before the session-creation call — whatever
that later call's outcome, the call trace is customer-creation followed by
session-creation and the write is already in the store, so it persists even
when the session call fails; with a stored id, no customer-creation call is
made, no write happens, and the session call reuses exactly the stored id. -/
theorem checkout_creates_customer_once (jwtVerify : String → Option String)
    (provider : CheckoutProvider) (authHeader : Option String)
    (token uid : String) (user : User) (s : Store)
    (htok : bearerToken authHeader = some token) (hjwt : jwtVerify token = some uid)
    (huser : findFirstUser s uid = some user) (hnp : user.isPremium = false) :
    (∀ cid, truthy user.stripeCustomerId = false →
      provider.createCustomer = .ok cid →
      (subscriptionCheckout jwtVerify provider authHeader s).calls =
        [.customersCreate user.email user.id, .checkoutSessionsCreate cid user.id] ∧
      (∀ u ∈ (subscriptionCheckout jwtVerify provider authHeader s).store.users,
        u.id = user.id → u.stripeCustomerId = some cid)) ∧
    (∀ cid, user.stripeCustomerId = some cid → cid ≠ "" →
      (subscriptionCheckout jwtVerify provider authHeader s).store = s ∧
      (subscriptionCheckout jwtVerify provider authHeader s).calls =
        [.checkoutSessionsCreate cid user.id]) := by
  constructor
  · intro cid hfresh hcust
    rcases hsess : provider.createSession with m | u
    · have heq : subscriptionCheckout jwtVerify provider authHeader s =
          ⟨updateUsersWhere (fun u => u.id == user.id)
              (fun u => { u with stripeCustomerId := some cid }) s,
            500, .internalError m,
            [.customersCreate user.email user.id,
             .checkoutSessionsCreate cid user.id]⟩ := by
        simp [subscriptionCheckout, htok, hjwt, huser, hnp, hfresh, hcust, hsess]
      rw [heq]
      exact ⟨rfl, updateUsersWhere_sets_customer s user.id cid⟩
    · have heq : subscriptionCheckout jwtVerify provider authHeader s =
          ⟨updateUsersWhere (fun u => u.id == user.id)
              (fun u => { u with stripeCustomerId := some cid }) s,
            200, .url u,
            [.customersCreate user.email user.id,
             .checkoutSessionsCreate cid user.id]⟩ := by
        simp [subscriptionCheckout, htok, hjwt, huser, hnp, hfresh, hcust, hsess]
      rw [heq]
      exact ⟨rfl, updateUsersWhere_sets_customer s user.id cid⟩
  · intro cid hcached hne
    have hcust : truthy (some cid) = true := by
      simp [truthy, hne]
    rcases hsess : provider.createSession with m | u
    · have heq : subscriptionCheckout jwtVerify provider authHeader s =
          ⟨s, 500, .internalError m, [.checkoutSessionsCreate cid user.id]⟩ := by
        simp [subscriptionCheckout, htok, hjwt, huser, hnp, hcached, hcust, hsess]
      rw [heq]
      exact ⟨rfl, rfl⟩
    · have heq : subscriptionCheckout jwtVerify provider authHeader s =
          ⟨s, 200, .url u, [.checkoutSessionsCreate cid user.id]⟩ := by
        simp [subscriptionCheckout, htok, hjwt, huser, hnp, hcached, hcust, hsess]
      rw [heq]
      exact ⟨rfl, rfl⟩

/-- C8 witness: the theorem applied twice — at the user `u1` with no stored
customer id (exercising the create-then-persist branch) and at the user `u1`
whose row already stores `cus_1` (exercising the reuse branch). -/
theorem checkout_creates_customer_once_witness :
    ((∀ cid, truthy exUserFresh.stripeCustomerId = false →
        exProvider.createCustomer = .ok cid →
        (subscriptionCheckout exVerify exProvider exAuthHeader exStoreFresh).calls =
          [.customersCreate exUserFresh.email exUserFresh.id,
           .checkoutSessionsCreate cid exUserFresh.id] ∧
        (∀ u ∈ (subscriptionCheckout exVerify exProvider exAuthHeader
            exStoreFresh).store.users,
          u.id = exUserFresh.id → u.stripeCustomerId = some cid)) ∧
      (∀ cid, exUserFresh.stripeCustomerId = some cid → cid ≠ "" →
        (subscriptionCheckout exVerify exProvider exAuthHeader exStoreFresh).store =
          exStoreFresh ∧
        (subscriptionCheckout exVerify exProvider exAuthHeader exStoreFresh).calls =
          [.checkoutSessionsCreate cid exUserFresh.id])) ∧
    ((∀ cid, truthy exUser.stripeCustomerId = false →
        exProvider.createCustomer = .ok cid →
        (subscriptionCheckout exVerify exProvider exAuthHeader exStore).calls =
          [.customersCreate exUser.email exUser.id,
           .checkoutSessionsCreate cid exUser.id] ∧
        (∀ u ∈ (subscriptionCheckout exVerify exProvider exAuthHeader
            exStore).store.users,
          u.id = exUser.id → u.stripeCustomerId = some cid)) ∧
      (∀ cid, exUser.stripeCustomerId = some cid → cid ≠ "" →
        (subscriptionCheckout exVerify exProvider exAuthHeader exStore).store =
          exStore ∧
        (subscriptionCheckout exVerify exProvider exAuthHeader exStore).calls =
          [.checkoutSessionsCreate cid exUser.id])) :=
  ⟨checkout_creates_customer_once exVerify exProvider exAuthHeader "tok1" "u1"
      exUserFresh exStoreFresh (by decide) rfl rfl rfl,
    checkout_creates_customer_once exVerify exProvider exAuthHeader "tok1" "u1"
      exUser exStore (by decide) rfl rfl rfl⟩

end Membooks
